import Mathlib

/-!
Shallow embedding of the access-control and visibility core of the
Dashboard-App backend (Django): users with privilege flags, tool links
with the personal/shared visibility tag and the redundant enforcement
pipeline, favorite toggling/reordering, and the team invite / join-request
workflows.  Each definition is translated from the corresponding Python
function; database tables are lists of rows and a "save" is explicit
state passing.
-/

namespace DashboardApp

/-- A user row (backend/users/models.py, class User).  Only the fields the
policy logic reads are embedded. -/
structure User where
  id : Nat
  username : String
  email : String
  first_name : String
  last_name : String
  avatar_url : String
  is_admin : Bool
  is_superuser : Bool
  is_staff : Bool
  deriving Repr, DecidableEq

/-- The three-flag privilege test repeated at every check site:
`is_admin or is_superuser or is_staff`. -/
def isPrivileged (u : User) : Bool :=
  u.is_admin || u.is_superuser || u.is_staff

/-- A tool-link row (backend/toollinks/models.py, class ToolLink).
`created_by` stores the owner's user id (`created_by_id`), `none` when the
owner was deleted (on_delete=SET_NULL). -/
structure ToolLink where
  id : Nat
  name : String
  url : String
  description : String
  category : String
  is_active : Bool
  is_personal : Bool
  created_by : Option Nat
  deriving Repr, DecidableEq

/-- Body of the `ToolLink.save` override (models.py lines 39-57) before it
calls `super().save()`: if the (refreshed) creator is not privileged and the
row is not yet personal, force `is_personal = True`.  The `created_by`
argument is the refreshed creator row (`none` when the FK is null). -/
def toolLinkSaveForce (created_by : Option User) (t : ToolLink) : ToolLink :=
  match created_by with
  | none => t
  | some u =>
    if !(isPrivileged u) then
      if !t.is_personal then { t with is_personal := true } else t
    else t

/-- The `pre_save` signal handler (signals.py, force_personal_tools_before_save):
same forcing, fired by `super().save()` just before the row is written. -/
def force_personal_tools_before_save (created_by : Option User) (t : ToolLink) : ToolLink :=
  match created_by with
  | none => t
  | some u =>
    if !(isPrivileged u) then
      if !t.is_personal then { t with is_personal := true } else t
    else t

/-- The `post_save` signal handler (signals.py, ensure_personal_tools_after_save):
after the write, if the persisted row still violates the invariant, repair it
in place with a direct `UPDATE`. -/
def ensure_personal_tools_after_save (created_by : Option User) (t : ToolLink) : ToolLink :=
  match created_by with
  | none => t
  | some u =>
    if !(isPrivileged u) then
      if !t.is_personal then { t with is_personal := true } else t
    else t

/-- The full model-save pipeline for a ToolLink: the `save` override body,
then `super().save()` which fires the pre-save signal, persists the row, and
fires the post-save signal.  The returned row is the persisted one. -/
def toolLinkSave (created_by : Option User) (t : ToolLink) : ToolLink :=
  ensure_personal_tools_after_save created_by
    (force_personal_tools_before_save created_by
      (toolLinkSaveForce created_by t))

/-- Client-supplied data accepted by ToolLinkSerializer for a create:
`is_active` and `is_personal` may be absent (`none`).  `created_by` is
read-only on the serializer, so it never arrives from the client. -/
structure ToolCreateData where
  name : String
  url : String
  description : String
  category : String
  is_active : Option Bool
  is_personal : Option Bool
  deriving Repr, DecidableEq

/-- `ToolLinkSerializer.validate` for a create operation (serializers.py
lines 35-48): non-admin creators get any client-supplied `is_personal`
stripped and replaced by `True`; admins keep what they sent. -/
def serializer_validate (user : User) (data : ToolCreateData) : ToolCreateData :=
  if !(isPrivileged user) then { data with is_personal := some true } else data

/-- `ToolLinkSerializer.create` (serializers.py lines 50-102): apply the
`is_active` default, force `is_personal`/`created_by` for non-admins, persist
through the model-save pipeline, then re-read and repair once more if the
persisted row is still wrong.  `newId` is the id the database assigns. -/
def serializer_create (user : User) (data : ToolCreateData) (newId : Nat) : ToolLink :=
  let act := match data.is_active with | some b => b | none => true
  let pers := if !(isPrivileged user) then true else data.is_personal.getD false
  let inst := toolLinkSave (some user)
    { id := newId, name := data.name, url := data.url,
      description := data.description, category := data.category,
      is_active := act, is_personal := pers, created_by := some user.id }
  if !(isPrivileged user) then
    if !inst.is_personal || inst.created_by != some user.id then
      toolLinkSave (some user) { inst with is_personal := true, created_by := some user.id }
    else inst
  else inst

/-- The serializer create path as invoked by the view: validation, then
create. -/
def serializerCreatePath (user : User) (data : ToolCreateData) (newId : Nat) : ToolLink :=
  serializer_create user (serializer_validate user data) newId

/-- Case-sensitive substring test, Python's `needle in hay` on strings. -/
def strContains (hay needle : String) : Bool :=
  (List.range (hay.toList.length + 1)).any
    (fun i => needle.toList.isPrefixOf (hay.toList.drop i))

/-- The view actions `ToolLinkViewSet.get_queryset` distinguishes.  Actions
other than the four detail ones (`retrieve`, `update`, `partial_update`,
`destroy`) — in particular `list` and the extra action `toggle_favorite` —
all take the list branch. -/
inductive ViewAction where
  | list
  | retrieve
  | update
  | partial_update
  | destroy
  | toggle_favorite
  deriving Repr, DecidableEq

/-- Row predicate for the action-dependent base queryset of
`ToolLinkViewSet.get_queryset` (views.py lines 151-187). -/
def matchesAction (a : ViewAction) (uid : Nat) (t : ToolLink) : Bool :=
  match a with
  | .update | .partial_update | .destroy =>
    (!t.is_personal && t.is_active) ||
    (t.is_personal && t.created_by == some uid) ||
    (t.created_by == some uid)
  | .retrieve =>
    t.is_active &&
    (!t.is_personal || (t.is_personal && t.created_by == some uid))
  | _ =>
    t.is_active && !t.is_personal

/-- `ToolLinkViewSet.get_queryset` (views.py lines 151-198): the
action-dependent base filter followed by the optional `category` equality
filter and the optional case-insensitive `name` substring filter. -/
def get_queryset (db : List ToolLink) (a : ViewAction) (uid : Nat)
    (category search : Option String) : List ToolLink :=
  let q := db.filter (matchesAction a uid)
  let q := match category with
    | some c => q.filter (fun t => t.category == c)
    | none => q
  match search with
  | some s => q.filter (fun t => strContains t.name.toLower s.toLower)
  | none => q

/-- DRF's `get_object` for a detail action: look the pk up inside the
action's queryset; `none` models the 404 raised when it is absent. -/
def get_object (db : List ToolLink) (a : ViewAction) (uid : Nat) (pk : Nat) :
    Option ToolLink :=
  (get_queryset db a uid none none).find? (fun t => t.id == pk)

/-- A favorite row (backend/toollinks/models.py, class ToolFavorite);
`user` and `tool` are the two foreign keys, unique together. -/
structure ToolFavorite where
  user : Nat
  tool : Nat
  order : Int
  deriving Repr, DecidableEq

/-- `ToolFavorite.objects.filter(user=user).count()`. -/
def countUserFavs (favs : List ToolFavorite) (uid : Nat) : Nat :=
  (favs.filter (fun f => f.user == uid)).length

/-- Whether a favorite row exists for the (user, tool) pair. -/
def hasFav (favs : List ToolFavorite) (uid tid : Nat) : Bool :=
  (favs.find? (fun f => f.user == uid && f.tool == tid)).isSome

/-- Body of `ToolLinkViewSet.toggle_favorite` (views.py lines 289-312) once
the tool row is resolved: delete the existing favorite and report `false`,
or create one at order = current count of the user's favorites and report
`true`.  Returns the reported `is_favorite` flag and the new favorites
table. -/
def toggle_favorite (favs : List ToolFavorite) (uid tid : Nat) :
    Bool × List ToolFavorite :=
  match favs.find? (fun f => f.user == uid && f.tool == tid) with
  | some _ =>
    (false, favs.eraseP (fun f => f.user == uid && f.tool == tid))
  | none =>
    (true, favs ++ [{ user := uid, tool := tid,
                      order := (countUserFavs favs uid : Int) }])

/-- The complete `toggle_favorite` action including target resolution via
`self.get_object()` (which uses the list-branch queryset, since the action
name is not one of the four detail actions).  `none` in the first component
models the 404 response; `some b` is the reported `is_favorite`. -/
def toggle_favorite_action (db : List ToolLink) (favs : List ToolFavorite)
    (uid pk : Nat) : Option Bool × List ToolFavorite :=
  match get_object db ViewAction.toggle_favorite uid pk with
  | none => (none, favs)
  | some tool =>
    let r := toggle_favorite favs uid tool.id
    (some r.1, r.2)

/-- Insert into a Python-dict association list: a later binding for the same
key overwrites the earlier one, otherwise the binding is appended. -/
def dictInsert (m : List (Nat × Int)) (k : Nat) (v : Int) : List (Nat × Int) :=
  if m.any (fun p => p.1 == k) then
    m.map (fun p => if p.1 == k then (k, v) else p)
  else m ++ [(k, v)]

/-- The `order_map` dict comprehension of `reorder_favorites` (views.py
lines 513-517): keep only the pairs where both `tool_id` and `order` are
present. -/
def buildOrderMap (pairs : List (Option Nat × Option Int)) : List (Nat × Int) :=
  pairs.foldl
    (fun m p =>
      match p with
      | (some k, some v) => dictInsert m k v
      | _ => m)
    []

/-- Dict lookup in the order map. -/
def lookupOrder (m : List (Nat × Int)) (k : Nat) : Option Int :=
  (m.find? (fun p => p.1 == k)).map (fun p => p.2)

/-- The in-memory order update applied to each favorite row fetched by the
`user=user, tool_id__in=order_map.keys()` query; rows of other users or with
tools not named in the map are untouched. -/
def applyOrder (m : List (Nat × Int)) (uid : Nat) (f : ToolFavorite) : ToolFavorite :=
  if f.user == uid then
    match lookupOrder m f.tool with
    | some o => { f with order := o }
    | none => f
  else f

/-- `ToolLinkViewSet.reorder_favorites` (views.py lines 498-546): build the
order map, bail out with count 0 when it is empty, otherwise set the named
favorites' orders in one bulk update and report how many rows were updated.
Returns (updated_count, new favorites table). -/
def reorder_favorites (favs : List ToolFavorite) (uid : Nat)
    (pairs : List (Option Nat × Option Int)) : Nat × List ToolFavorite :=
  let m := buildOrderMap pairs
  if m.isEmpty then (0, favs)
  else
    ((favs.filter (fun f => f.user == uid && (lookupOrder m f.tool).isSome)).length,
     favs.map (applyOrder m uid))

/-- Run a sequence of `toggle_favorite` calls for one user, recording the
`new_order` value computed at each creation (the current favorite count);
deletions record nothing.  Returns the final table and the trace of assigned
orders in invocation sequence. -/
def runToggles (favs : List ToolFavorite) (uid : Nat) :
    List Nat → List ToolFavorite × List Int
  | [] => (favs, [])
  | tid :: rest =>
    let step := toggle_favorite favs uid tid
    let r := runToggles step.2 uid rest
    (r.1, if step.1 then (countUserFavs favs uid : Int) :: r.2 else r.2)

/-- A toggle sequence in which every call creates a favorite (no call hits
an already-favorited tool, so no deletion happens). -/
def allCreates (favs : List ToolFavorite) (uid : Nat) : List Nat → Bool
  | [] => true
  | tid :: rest =>
    !(hasFav favs uid tid) && allCreates (toggle_favorite favs uid tid).2 uid rest

/-- A team-membership row (backend/workspace_teams/models.py, class
TeamMember): `role` is `admin` or `member`, unique per (team, user). -/
structure TeamMember where
  team : Nat
  user : Nat
  role : String
  deriving Repr, DecidableEq

/-- A team-invite row (class TeamInvite): targets an email address, carries
a status in {pending, accepted, expired, cancelled} and an optional expiry
instant (modelled as a Nat timestamp). -/
structure TeamInvite where
  id : Nat
  team : Nat
  email : String
  status : String
  expires_at : Option Nat
  deriving Repr, DecidableEq

/-- A join-request row (class TeamJoinRequest): status in
{pending, approved, rejected, cancelled}. -/
structure TeamJoinRequest where
  id : Nat
  team : Nat
  user : Nat
  status : String
  reviewed_by : Option Nat
  reviewed_at : Option Nat
  deriving Repr, DecidableEq

/-- `TeamMember.objects.filter(team=t, user=u).exists()`. -/
def isMember (members : List TeamMember) (team uid : Nat) : Bool :=
  members.any (fun m => m.team == team && m.user == uid)

/-- `TeamMember.objects.filter(team=t, user=u, role='admin').exists()` —
the team-scoped admin test used by approve/reject. -/
def isTeamAdmin (members : List TeamMember) (team uid : Nat) : Bool :=
  members.any (fun m => m.team == team && m.user == uid && m.role == "admin")

/-- The truthy-and-comparison `invite.expires_at and invite.expires_at <
timezone.now()` guard. -/
def inviteExpired (invite : TeamInvite) (now : Nat) : Bool :=
  match invite.expires_at with
  | some e => decide (e < now)
  | none => false

/-- Outcome of `TeamInviteViewSet.accept`, one constructor per return site. -/
inductive AcceptOutcome where
  | wrongEmail      -- 403, invite is for a different email
  | invalidStatus   -- 400, invite no longer pending
  | expiredNow      -- 400, invite just marked expired
  | alreadyMember   -- 400, invite marked accepted, no membership created
  | joined          -- 200, membership created
  deriving Repr, DecidableEq

/-- `TeamInviteViewSet.accept` (workspace_teams/views.py lines 228-278):
email check, status check, expiry check (marks the invite expired), existing
membership check (marks the invite accepted but creates nothing), then the
successful path creating a `member`-role row and marking the invite
accepted. -/
def acceptInvite (invite : TeamInvite) (user : User) (members : List TeamMember)
    (now : Nat) : AcceptOutcome × TeamInvite × List TeamMember :=
  if invite.email.toLower != user.email.toLower then
    (AcceptOutcome.wrongEmail, invite, members)
  else if invite.status != "pending" then
    (AcceptOutcome.invalidStatus, invite, members)
  else if inviteExpired invite now then
    (AcceptOutcome.expiredNow, { invite with status := "expired" }, members)
  else if isMember members invite.team user.id then
    (AcceptOutcome.alreadyMember, { invite with status := "accepted" }, members)
  else
    (AcceptOutcome.joined, { invite with status := "accepted" },
     members ++ [{ team := invite.team, user := user.id, role := "member" }])

/-- Outcome of `TeamJoinRequestViewSet.approve`, one constructor per return
site. -/
inductive ApproveOutcome where
  | forbidden         -- 403, reviewer holds no admin membership on the team
  | alreadyProcessed  -- 400, request no longer pending
  | approvedOk        -- 200, membership created, request approved
  deriving Repr, DecidableEq

/-- Body of `TeamJoinRequestViewSet.approve` (workspace_teams/views.py
lines 384-420), after `self.get_object()` has resolved the request: the
reviewer must hold a `role='admin'` TeamMember row on the request's team
(this body itself never reads the reviewer's global flags — those are
consulted earlier, by the queryset scoping of `get_object`); then the
request must still be pending; then a `member`-role row is created and the
request is stamped approved. -/
def approveJoinRequest (jr : TeamJoinRequest) (reviewer : User)
    (members : List TeamMember) (now : Nat) :
    ApproveOutcome × TeamJoinRequest × List TeamMember :=
  if !(isTeamAdmin members jr.team reviewer.id) then
    (ApproveOutcome.forbidden, jr, members)
  else if jr.status != "pending" then
    (ApproveOutcome.alreadyProcessed, jr, members)
  else
    (ApproveOutcome.approvedOk,
     { jr with status := "approved", reviewed_by := some reviewer.id,
               reviewed_at := some now },
     members ++ [{ team := jr.team, user := jr.user, role := "member" }])

/-- `TeamJoinRequestViewSet.get_queryset` (workspace_teams/views.py lines
304-313): a globally privileged reviewer sees the pending requests of the
teams where they hold an `admin`-role membership row (`admin_teams`); a
regular user sees only their own requests. -/
def joinRequestQueryset (db : List TeamJoinRequest) (members : List TeamMember)
    (reviewer : User) : List TeamJoinRequest :=
  if isPrivileged reviewer then
    db.filter (fun jr =>
      isTeamAdmin members jr.team reviewer.id && jr.status == "pending")
  else
    db.filter (fun jr => jr.user == reviewer.id)

/-- DRF's `self.get_object()` for the approve/reject detail actions
(views.py:382): resolve the pk inside the role-scoped queryset; `none`
models the 404 raised when the pk is not in it. -/
def join_request_get_object (db : List TeamJoinRequest)
    (members : List TeamMember) (reviewer : User) (pk : Nat) :
    Option TeamJoinRequest :=
  (joinRequestQueryset db members reviewer).find? (fun jr => jr.id == pk)

/-- The complete `approve` action (views.py lines 379-420) including the
`self.get_object()` resolution: a pk outside the reviewer's scoped queryset
is a 404 (`none`) before the team-admin check is ever reached.  Only the
successful branch persists anything (`join_request.save()` and the member
creation); the 403/400 branches return before any write. -/
def approve_action (db : List TeamJoinRequest) (members : List TeamMember)
    (reviewer : User) (pk now : Nat) :
    Option ApproveOutcome × List TeamJoinRequest × List TeamMember :=
  match join_request_get_object db members reviewer pk with
  | none => (none, db, members)
  | some jr =>
    let r := approveJoinRequest jr reviewer members now
    if r.1 = ApproveOutcome.approvedOk then
      (some r.1, db.map (fun x => if x.id == jr.id then r.2.1 else x), r.2.2)
    else
      (some r.1, db, members)

/-- The identity claims consumed by `User.get_or_create_from_clerk`
(users/models.py lines 77-175): subject id, profile fields and the
`public_metadata.role` entry. -/
structure ClerkClaims where
  sub : String
  email : String
  given_name : String
  family_name : String
  picture : String
  public_metadata_role : Option String
  deriving Repr, DecidableEq

/-- The update-existing-user branch of `User.get_or_create_from_clerk`
(users/models.py lines 116-162).  `username` is the candidate username the
surrounding code computed from the claims (already made unique against the
user table); `none` when no candidate could be generated.  Email and name
fields are refreshed when present and different; `is_admin` is granted when
the claims carry role=admin and the user lacks it, and is never revoked;
`is_superuser` / `is_staff` are never touched. -/
def get_or_create_from_clerk_update (user : User) (claims : ClerkClaims)
    (username : Option String) : User :=
  let email := claims.email.trim
  let first_name := claims.given_name.trim
  let last_name := claims.family_name.trim
  let clerk_id := claims.sub
  let user := if email != "" && email != user.email then
      { user with email := email } else user
  let is_auto_generated :=
    user.username.startsWith "user_" || user.username == clerk_id ||
    (clerk_id != "" && strContains user.username clerk_id)
  let user := match username with
    | some un =>
      if is_auto_generated && un != user.username then
        { user with username := un } else user
    | none => user
  let user := if first_name != "" && first_name != user.first_name then
      { user with first_name := first_name } else user
  let user := if last_name != "" && last_name != user.last_name then
      { user with last_name := last_name } else user
  let avatar_url := claims.picture
  let user := if avatar_url != "" && avatar_url != user.avatar_url then
      { user with avatar_url := avatar_url } else user
  let clerk_admin_status := claims.public_metadata_role == some "admin"
  let user := if clerk_admin_status && !user.is_admin then
      { user with is_admin := true } else user
  user

/-- The spec's concrete reorder scenario: user 1 has favorites for tools
10 (A), 20 (B), 30 (C) at orders 0, 1, 2. -/
def favsC8 : List ToolFavorite :=
  [{ user := 1, tool := 10, order := 0 },
   { user := 1, tool := 20, order := 1 },
   { user := 1, tool := 30, order := 2 }]

/-- The submitted pairs {A:2} and {C:0} (B omitted), plus a pair naming a
tool (99) the user never favorited, which must be silently ignored. -/
def pairsC8 : List (Option Nat × Option Int) :=
  [(some 10, some 2), (some 30, some 0), (some 99, some 5)]

/-! ## Helper lemmas -/

/-- The post-save repair step always leaves a personal row behind when the
creator is non-privileged. -/
theorem ensure_personal_result (u : User) (t : ToolLink)
    (h : isPrivileged u = false) :
    (ensure_personal_tools_after_save (some u) t).is_personal = true := by
  cases hp : t.is_personal <;>
    simp [ensure_personal_tools_after_save, h, hp]

/-- The full model-save pipeline persists `is_personal = true` whenever the
creator is non-privileged, whatever the incoming row said. -/
theorem toolLinkSave_personal (u : User) (t : ToolLink)
    (h : isPrivileged u = false) :
    (toolLinkSave (some u) t).is_personal = true := by
  unfold toolLinkSave
  exact ensure_personal_result u _ h

/-- A toggle on a pair without an existing favorite row creates one at the
end with order = the user's current favorite count. -/
theorem toggle_favorite_creates (favs : List ToolFavorite) (uid tid : Nat)
    (h : hasFav favs uid tid = false) :
    toggle_favorite favs uid tid =
      (true, favs ++ [{ user := uid, tool := tid,
                        order := (countUserFavs favs uid : Int) }]) := by
  cases hf : favs.find? (fun f => f.user == uid && f.tool == tid) with
  | none => simp [toggle_favorite, hf]
  | some f => rw [hasFav, hf] at h; simp at h

/-- Appending a row of the same user bumps the user's favorite count by
one. -/
theorem countUserFavs_append (favs : List ToolFavorite) (uid tid : Nat) (o : Int) :
    countUserFavs (favs ++ [{ user := uid, tool := tid, order := o }]) uid =
      countUserFavs favs uid + 1 := by
  simp [countUserFavs, List.filter_append]

/-! ## Claims -/

/-- Claim C1: a ToolLink written through the standard create/update paths
(serializer validation + create, model save with its pre/post-save signals)
whose creator has all three privilege flags false is persisted with
`is_personal = true`. -/
theorem c1_personal_invariant_enforced (u : User) (t : ToolLink)
    (data : ToolCreateData) (newId : Nat) (h : isPrivileged u = false) :
    (toolLinkSave (some u) t).is_personal = true ∧
    (serializerCreatePath u data newId).is_personal = true := by
  refine ⟨toolLinkSave_personal u t h, ?_⟩
  unfold serializerCreatePath serializer_create serializer_validate
  simp only [h, Bool.not_false, if_true]
  split
  · exact toolLinkSave_personal u _ h
  · exact toolLinkSave_personal u _ h

/-- Witness for C1 at a concrete non-privileged user and a concrete shared
row / create payload. -/
theorem c1_personal_invariant_enforced_witness :
    (toolLinkSave (some (User.mk 7 "bob" "bob@x.io" "" "" "" false false false))
      (ToolLink.mk 3 "grafana" "https://g" "" "other" true false (some 7))).is_personal = true ∧
    (serializerCreatePath (User.mk 7 "bob" "bob@x.io" "" "" "" false false false)
      (ToolCreateData.mk "grafana" "https://g" "" "other" none (some false)) 9).is_personal = true :=
  c1_personal_invariant_enforced
    (User.mk 7 "bob" "bob@x.io" "" "" "" false false false)
    (ToolLink.mk 3 "grafana" "https://g" "" "other" true false (some 7))
    (ToolCreateData.mk "grafana" "https://g" "" "other" none (some false)) 9
    (by decide)

/-- Claim C2: with no category/search parameters, a ToolLink appears in the
list queryset iff it is in the table, active, and not personal — so no
personal tool is ever listed, including the requesting user's own. -/
theorem c2_list_shows_exactly_active_shared (db : List ToolLink) (uid : Nat)
    (t : ToolLink) :
    t ∈ get_queryset db ViewAction.list uid none none ↔
      t ∈ db ∧ t.is_active = true ∧ t.is_personal = false := by
  simp [get_queryset, matchesAction, List.mem_filter, and_assoc]

/-- Witness for C2: a concrete active shared tool is listed. -/
theorem c2_list_shows_exactly_active_shared_witness :
    (ToolLink.mk 1 "jira" "https://j" "" "other" true false (some 7)) ∈
      get_queryset [ToolLink.mk 1 "jira" "https://j" "" "other" true false (some 7)]
        ViewAction.list 7 none none :=
  (c2_list_shows_exactly_active_shared
    [ToolLink.mk 1 "jira" "https://j" "" "other" true false (some 7)] 7
    (ToolLink.mk 1 "jira" "https://j" "" "other" true false (some 7))).mpr
    (by decide)

/-- Counterexample to C3 as stated: an inactive personal tool owned by user
7 is NOT in the retrieve queryset for user 7, although the claim says the
owner can fetch it regardless of the active flag. -/
theorem c3_retrieve_ignores_active_cex :
    (ToolLink.mk 5 "secret" "https://s" "" "other" false true (some 7)) ∈
      [ToolLink.mk 5 "secret" "https://s" "" "other" false true (some 7)] ∧
    (ToolLink.mk 5 "secret" "https://s" "" "other" false true (some 7)).is_personal = true ∧
    (ToolLink.mk 5 "secret" "https://s" "" "other" false true (some 7)).created_by = some 7 ∧
    ¬ ((ToolLink.mk 5 "secret" "https://s" "" "other" false true (some 7)) ∈
        get_queryset [ToolLink.mk 5 "secret" "https://s" "" "other" false true (some 7)]
          ViewAction.retrieve 7 none none) := by
  decide

/-- Claim C3 (amended): a personal ToolLink is in the retrieve queryset for
user `uid` iff it is in the table, active, AND owned by `uid`; the owner
cannot retrieve their own inactive personal tool through the detail
endpoint (only the update/delete queryset includes inactive owned rows). -/
theorem c3_personal_retrieve_owner_and_active (db : List ToolLink) (uid : Nat)
    (t : ToolLink) (hp : t.is_personal = true) :
    t ∈ get_queryset db ViewAction.retrieve uid none none ↔
      t ∈ db ∧ t.is_active = true ∧ t.created_by = some uid := by
  simp [get_queryset, matchesAction, List.mem_filter, hp, and_assoc]

/-- Witness for C3 (amended): an active personal tool owned by user 7 is
retrievable by user 7. -/
theorem c3_personal_retrieve_owner_and_active_witness :
    (ToolLink.mk 5 "notes" "https://n" "" "other" true true (some 7)) ∈
      get_queryset [ToolLink.mk 5 "notes" "https://n" "" "other" true true (some 7)]
        ViewAction.retrieve 7 none none :=
  (c3_personal_retrieve_owner_and_active
    [ToolLink.mk 5 "notes" "https://n" "" "other" true true (some 7)] 7
    (ToolLink.mk 5 "notes" "https://n" "" "other" true true (some 7))
    (by decide)).mpr (by decide)

/-- Counterexample to C4 as stated: a reviewer with every global privilege
flag set but no TeamMember row resolves a pending request through an empty
role-scoped queryset, so the approve action fails with the 404 not-found
outcome (`none`), not the claimed 403 authorization error — though the
request does stay pending and no membership is created. -/
theorem c4_privileged_nonmember_not_found_cex :
    approve_action [TeamJoinRequest.mk 1 4 8 "pending" none none] []
      (User.mk 9 "root" "root@x.io" "" "" "" true true true) 1 100 =
      (none, [TeamJoinRequest.mk 1 4 8 "pending" none none], []) ∧
    (approve_action [TeamJoinRequest.mk 1 4 8 "pending" none none] []
      (User.mk 9 "root" "root@x.io" "" "" "" true true true) 1 100).1 ≠
      some ApproveOutcome.forbidden := by
  constructor
  · decide
  · decide

/-- Claim C4 (amended): approval succeeds only when the reviewer holds an
`admin`-role TeamMember row on the resolved request's team.  Without such a
row the request stays pending and no membership is created, but the error
depends on how the request was resolved: a globally privileged reviewer
whose pk matches no request of a team they admin gets the 404 not-found
outcome from the queryset scoping of `get_object` (not the claimed 403),
while a reviewer who does resolve the request — e.g. a non-privileged
requester reaching their own request — gets the 403 outcome from the
team-admin check. -/
theorem c4_approve_team_admin_scoped (db : List TeamJoinRequest)
    (members : List TeamMember) (reviewer : User) (pk now : Nat) :
    ((approve_action db members reviewer pk now).1 = some ApproveOutcome.approvedOk →
      ∃ jr, join_request_get_object db members reviewer pk = some jr ∧
        isTeamAdmin members jr.team reviewer.id = true) ∧
    (isPrivileged reviewer = true →
      (∀ jr ∈ db, jr.id = pk → isTeamAdmin members jr.team reviewer.id = false) →
      approve_action db members reviewer pk now = (none, db, members)) ∧
    (∀ jr, join_request_get_object db members reviewer pk = some jr →
      isTeamAdmin members jr.team reviewer.id = false →
      approve_action db members reviewer pk now =
        (some ApproveOutcome.forbidden, db, members)) := by
  refine ⟨?_, ?_, ?_⟩
  · intro h
    cases hobj : join_request_get_object db members reviewer pk with
    | none => simp [approve_action, hobj] at h
    | some jr =>
      have h1 : (approveJoinRequest jr reviewer members now).1 =
          ApproveOutcome.approvedOk := by
        simp only [approve_action, hobj] at h
        split at h <;> simp_all
      cases ha : isTeamAdmin members jr.team reviewer.id with
      | false => simp [approveJoinRequest, ha] at h1
      | true => exact ⟨jr, rfl, ha⟩
  · intro hpriv h
    have hobj : join_request_get_object db members reviewer pk = none := by
      simp only [join_request_get_object, joinRequestQueryset, hpriv, if_true]
      rw [List.find?_eq_none]
      intro x hx hbeq
      rw [List.mem_filter] at hx
      obtain ⟨hxdb, hxq⟩ := hx
      have hid : x.id = pk := by simpa using hbeq
      have hna := h x hxdb hid
      simp [hna] at hxq
    simp [approve_action, hobj]
  · intro jr hobj ha
    have hr : approveJoinRequest jr reviewer members now =
        (ApproveOutcome.forbidden, jr, members) := by
      simp [approveJoinRequest, ha]
    simp [approve_action, hobj, hr]

/-- Witness for C4 (amended): the non-privileged requester of a pending
request gets the 403 outcome from the team-admin check, and the all-flags
global admin with no membership row gets the 404 outcome; in both cases
the request table and membership table are unchanged. -/
theorem c4_approve_team_admin_scoped_witness :
    approve_action [TeamJoinRequest.mk 1 4 8 "pending" none none] []
      (User.mk 8 "kim" "kim@x.io" "" "" "" false false false) 1 100 =
      (some ApproveOutcome.forbidden,
       [TeamJoinRequest.mk 1 4 8 "pending" none none], []) ∧
    approve_action [TeamJoinRequest.mk 1 4 8 "pending" none none] []
      (User.mk 9 "root" "root@x.io" "" "" "" true true true) 1 100 =
      (none, [TeamJoinRequest.mk 1 4 8 "pending" none none], []) :=
  ⟨(c4_approve_team_admin_scoped
      [TeamJoinRequest.mk 1 4 8 "pending" none none] []
      (User.mk 8 "kim" "kim@x.io" "" "" "" false false false) 1 100).2.2
      (TeamJoinRequest.mk 1 4 8 "pending" none none) (by decide) (by decide),
   (c4_approve_team_admin_scoped
      [TeamJoinRequest.mk 1 4 8 "pending" none none] []
      (User.mk 9 "root" "root@x.io" "" "" "" true true true) 1 100).2.1
      (by decide) (by decide)⟩

/-- Claim C5: accepting a pending invite past its expiry marks it `expired`
and errors; accepting a pending, unexpired invite when the matching-email
user is already a member marks it `accepted`, errors, and creates no
membership row in either case. -/
theorem c5_accept_expired_and_member_paths (invite : TeamInvite) (user : User)
    (members : List TeamMember) (now : Nat)
    (hEmail : invite.email.toLower = user.email.toLower)
    (hStatus : invite.status = "pending") :
    (inviteExpired invite now = true →
      acceptInvite invite user members now =
        (AcceptOutcome.expiredNow, { invite with status := "expired" }, members)) ∧
    (inviteExpired invite now = false →
      isMember members invite.team user.id = true →
      acceptInvite invite user members now =
        (AcceptOutcome.alreadyMember, { invite with status := "accepted" }, members)) := by
  constructor
  · intro hExp
    simp [acceptInvite, hEmail, hStatus, hExp]
  · intro hExp hMem
    simp [acceptInvite, hEmail, hStatus, hExp, hMem]

/-- Witness for C5: both error paths at a concrete invite — expiry 10 seen
at time 100, and an unexpired acceptance by an existing member at time 5. -/
theorem c5_accept_expired_and_member_paths_witness :
    acceptInvite (TeamInvite.mk 1 3 "a@b.c" "pending" (some 10))
      (User.mk 5 "ann" "a@b.c" "" "" "" false false false) [] 100 =
      (AcceptOutcome.expiredNow, TeamInvite.mk 1 3 "a@b.c" "expired" (some 10), []) ∧
    acceptInvite (TeamInvite.mk 1 3 "a@b.c" "pending" (some 10))
      (User.mk 5 "ann" "a@b.c" "" "" "" false false false)
      [TeamMember.mk 3 5 "member"] 5 =
      (AcceptOutcome.alreadyMember, TeamInvite.mk 1 3 "a@b.c" "accepted" (some 10),
       [TeamMember.mk 3 5 "member"]) :=
  ⟨(c5_accept_expired_and_member_paths (TeamInvite.mk 1 3 "a@b.c" "pending" (some 10))
      (User.mk 5 "ann" "a@b.c" "" "" "" false false false) [] 100
      rfl (by decide)).1 (by decide),
   (c5_accept_expired_and_member_paths (TeamInvite.mk 1 3 "a@b.c" "pending" (some 10))
      (User.mk 5 "ann" "a@b.c" "" "" "" false false false)
      [TeamMember.mk 3 5 "member"] 5
      rfl (by decide)).2 (by decide) (by decide)⟩

/-- Claim C6: updating an existing user from external identity claims is
monotone on the elevated flags: the new `is_admin` is the old one OR-ed with
the claims' role=admin bit (so a true flag is never demoted), and
`is_superuser` / `is_staff` are never touched at all. -/
theorem c6_clerk_update_flags_monotone (user : User) (claims : ClerkClaims)
    (username : Option String) :
    (get_or_create_from_clerk_update user claims username).is_admin =
      (user.is_admin || (claims.public_metadata_role == some "admin")) ∧
    (get_or_create_from_clerk_update user claims username).is_superuser =
      user.is_superuser ∧
    (get_or_create_from_clerk_update user claims username).is_staff =
      user.is_staff := by
  refine ⟨?_, ?_, ?_⟩ <;>
  · cases username <;>
      simp only [get_or_create_from_clerk_update, apply_ite (f := User.is_admin),
        apply_ite (f := User.is_superuser), apply_ite (f := User.is_staff),
        ite_self] <;>
      cases hu : user.is_admin <;>
      cases hr : (claims.public_metadata_role == some "admin") <;>
      simp [hu, hr]

/-- Claim C7: toggling a favorite deletes the existing (user, tool) row and
reports false, or creates one with order = the user's current favorite
count and reports true. -/
theorem c7_toggle_favorite_behaviour (favs : List ToolFavorite) (uid tid : Nat) :
    (hasFav favs uid tid = true →
      toggle_favorite favs uid tid =
        (false, favs.eraseP (fun f => f.user == uid && f.tool == tid))) ∧
    (hasFav favs uid tid = false →
      toggle_favorite favs uid tid =
        (true, favs ++ [{ user := uid, tool := tid,
                          order := (countUserFavs favs uid : Int) }])) := by
  constructor
  · intro h
    cases hf : favs.find? (fun f => f.user == uid && f.tool == tid) with
    | none => rw [hasFav, hf] at h; simp at h
    | some f => simp [toggle_favorite, hf]
  · exact toggle_favorite_creates favs uid tid

/-- Witness for C7: both branches at a concrete single-row table. -/
theorem c7_toggle_favorite_behaviour_witness :
    toggle_favorite [ToolFavorite.mk 1 2 0] 1 2 = (false, []) ∧
    toggle_favorite ([] : List ToolFavorite) 1 2 = (true, [ToolFavorite.mk 1 2 0]) :=
  ⟨(c7_toggle_favorite_behaviour [ToolFavorite.mk 1 2 0] 1 2).1 (by decide),
   (c7_toggle_favorite_behaviour [] 1 2).2 (by decide)⟩

/-- Claim C8: reorder-favorites updates exactly the named existing
favorites of the principal (concretely, orders [0,1,2] for tools [10,20,30]
with pairs {10:2} and {30:0} submitted yield 2, 1, 0 and a reported count
of 2, the pair naming the un-favorited tool 99 being silently ignored);
favorites not named in the pairs, and favorites of other users, keep their
rows unchanged. -/
theorem c8_reorder_updates_named_only :
    reorder_favorites favsC8 1 pairsC8 =
      (2, [{ user := 1, tool := 10, order := 2 },
           { user := 1, tool := 20, order := 1 },
           { user := 1, tool := 30, order := 0 }]) ∧
    (∀ (favs : List ToolFavorite) (uid : Nat)
        (pairs : List (Option Nat × Option Int)) (f : ToolFavorite),
      f ∈ favs → lookupOrder (buildOrderMap pairs) f.tool = none →
      f ∈ (reorder_favorites favs uid pairs).2) ∧
    (∀ (favs : List ToolFavorite) (uid : Nat)
        (pairs : List (Option Nat × Option Int)) (f : ToolFavorite),
      f ∈ favs → f.user ≠ uid → f ∈ (reorder_favorites favs uid pairs).2) := by
  refine ⟨by decide, ?_, ?_⟩
  · intro favs uid pairs f hf hl
    simp only [reorder_favorites]
    split
    · exact hf
    · have he : applyOrder (buildOrderMap pairs) uid f = f := by
        simp [applyOrder, hl]
      exact he ▸ List.mem_map_of_mem _ hf
  · intro favs uid pairs f hf hu
    simp only [reorder_favorites]
    split
    · exact hf
    · have hb : (f.user == uid) = false := by simpa using hu
      have he : applyOrder (buildOrderMap pairs) uid f = f := by
        simp [applyOrder, hb]
      exact he ▸ List.mem_map_of_mem _ hf

/-- Witness for C8's general conjuncts: the un-named favorite of user 1
survives the concrete reorder unchanged, and another user's row for a named
tool survives as well. -/
theorem c8_reorder_updates_named_only_witness :
    (ToolFavorite.mk 1 20 1) ∈ (reorder_favorites favsC8 1 pairsC8).2 ∧
    (ToolFavorite.mk 2 10 5) ∈ (reorder_favorites [ToolFavorite.mk 2 10 5] 1 pairsC8).2 :=
  ⟨c8_reorder_updates_named_only.2.1 favsC8 1 pairsC8
      (ToolFavorite.mk 1 20 1) (by decide) (by decide),
   c8_reorder_updates_named_only.2.2 [ToolFavorite.mk 2 10 5] 1 pairsC8
      (ToolFavorite.mk 2 10 5) (by decide) (by decide)⟩

/-- Counterexample to C9 as stated: starting from no favorites, the toggle
sequence favorite 10, favorite 20, unfavorite 10, favorite 30 assigns the
orders 0, 1, 1 — the last assigned order is not strictly greater than every
previously assigned one. -/
theorem c9_orders_not_strictly_increasing_cex :
    (runToggles ([] : List ToolFavorite) 1 [10, 20, 10, 30]).2 = [0, 1, 1] ∧
    ¬ List.Pairwise (fun a b : Int => a < b)
        (runToggles ([] : List ToolFavorite) 1 [10, 20, 10, 30]).2 := by
  constructor
  · decide
  · decide

/-- Claim C9 (amended): each (re-)favoriting assigns order = the user's
favorite count at that moment, so along any toggle sequence containing no
unfavorite (no toggle of an already-favorited tool) the assigned orders are
strictly increasing per principal; an intervening unfavorite can shrink the
count and make an order repeat. -/
theorem c9_orders_increasing_without_removals (uid : Nat) :
    ∀ (ops : List Nat) (favs : List ToolFavorite),
      allCreates favs uid ops = true →
      List.Pairwise (fun a b : Int => a < b) (runToggles favs uid ops).2 ∧
      ∀ x ∈ (runToggles favs uid ops).2, (countUserFavs favs uid : Int) ≤ x := by
  intro ops
  induction ops with
  | nil =>
    intro favs _
    simp [runToggles]
  | cons tid rest ih =>
    intro favs h
    rw [allCreates, Bool.and_eq_true] at h
    obtain ⟨h1, h2⟩ := h
    have hnf : hasFav favs uid tid = false := by
      cases hh : hasFav favs uid tid
      · rfl
      · rw [hh] at h1; simp at h1
    have hstep := toggle_favorite_creates favs uid tid hnf
    rw [hstep] at h2
    have IH := ih _ h2
    have hcount := countUserFavs_append favs uid tid (countUserFavs favs uid : Int)
    simp only [runToggles, hstep, if_true]
    constructor
    · rw [List.pairwise_cons]
      refine ⟨?_, IH.1⟩
      intro x hx
      have hb := IH.2 x hx
      rw [hcount] at hb
      push_cast at hb
      omega
    · intro x hx
      rcases List.mem_cons.mp hx with hx | hx
      · exact hx ▸ le_refl _
      · have hb := IH.2 x hx
        rw [hcount] at hb
        push_cast at hb
        omega

/-- Witness for C9 (amended): three fresh favorites from an empty table get
the strictly increasing orders 0, 1, 2. -/
theorem c9_orders_increasing_without_removals_witness :
    List.Pairwise (fun a b : Int => a < b)
      (runToggles ([] : List ToolFavorite) 1 [10, 20, 30]).2 :=
  (c9_orders_increasing_without_removals 1 [10, 20, 30] [] (by decide)).1

/-- Claim C10: the toggle-favorite action resolves its target through the
list-branch queryset (active, non-personal), so a pk matched in the table
only by personal rows — including the caller's own — yields the not-found
outcome with the favorites table untouched, and any tool the action does
resolve is active and shared. -/
theorem c10_toggle_favorite_personal_not_found
    (db : List ToolLink) (favs : List ToolFavorite) (uid pk : Nat) :
    ((∀ t ∈ db, t.id = pk → t.is_personal = true) →
      toggle_favorite_action db favs uid pk = (none, favs)) ∧
    (∀ t, get_object db ViewAction.toggle_favorite uid pk = some t →
      t.is_active = true ∧ t.is_personal = false) := by
  constructor
  · intro h
    have hobj : get_object db ViewAction.toggle_favorite uid pk = none := by
      simp only [get_object, get_queryset]
      rw [List.find?_eq_none]
      intro x hx
      rw [List.mem_filter] at hx
      obtain ⟨hxdb, hxp⟩ := hx
      intro hbeq
      have hid : x.id = pk := by simpa using hbeq
      have hpers := h x hxdb hid
      simp [matchesAction, hpers] at hxp
    simp [toggle_favorite_action, hobj]
  · intro t ht
    simp only [get_object, get_queryset] at ht
    have hmem := List.mem_of_find?_eq_some ht
    rw [List.mem_filter] at hmem
    obtain ⟨_, hp⟩ := hmem
    simp only [matchesAction, Bool.and_eq_true, Bool.not_eq_true'] at hp
    exact hp

/-- Witness for C10: toggling pk 5 when the only row with id 5 is the
caller's own personal tool is a 404 and changes nothing. -/
theorem c10_toggle_favorite_personal_not_found_witness :
    toggle_favorite_action
      [ToolLink.mk 5 "notes" "https://n" "" "other" true true (some 1)]
      [] 1 5 = (none, []) :=
  (c10_toggle_favorite_personal_not_found
    [ToolLink.mk 5 "notes" "https://n" "" "other" true true (some 1)]
    [] 1 5).1 (by decide)

end DashboardApp
